import Mathlib

/-!
Verification of the Submarine operator controller
(src/submarine-cloud-v2/controller.go) against its specification.

The Go controller is shallowly embedded as pure Lean functions.  The cluster
store (the API server plus the informer listers), the event recorder and the
helm release state are threaded explicitly through a `World` record.  Go
`(*T, error)` returns become `SyncRes`, whose `nilDeref` constructor marks a
Go nil-pointer-dereference panic.  Machine `int32` values are modelled as
`Int` (no arithmetic is performed on them, only copies and comparisons).

The rate-limited work queue (`workqueue.RateLimitingInterface` of client-go)
is not part of the sources under `src/`; only its declaration and call sites
are.  It is therefore modelled from the specification, section 4.A (see
`WorkQueue.add` below).
-/

/-- Identity of the parent custom resource and its desired/observed state
(`Submarine` in pkg/submarine/v1alpha1; the fields read by controller.go). -/
structure SubmarineSpec where
  version : String
  serverImage : String
  serverReplicas : Option Int
  databaseImage : String
  databaseReplicas : Option Int
  databaseStorageSize : String
  tensorboardStorageSize : String
  storageType : String
  nfsIP : String
  nfsPath : String
  hostPath : String
deriving DecidableEq

/-- Status block of the parent resource. -/
structure SubmarineStatus where
  availableServerReplicas : Int
  availableDatabaseReplicas : Int
deriving DecidableEq

/-- The parent custom resource.  `ns` is `ObjectMeta.Namespace`
(`namespace` is a Lean keyword), `uid` its opaque UID. -/
structure Submarine where
  ns : String
  name : String
  uid : Nat
  resourceVersion : String
  spec : SubmarineSpec
  status : SubmarineStatus
deriving DecidableEq

/-- Controller owner reference (`metav1.OwnerReference` with Controller=true),
as produced by `metav1.NewControllerRef`. -/
structure OwnerRef where
  kind : String
  name : String
  uid : Nat
deriving DecidableEq

/-- A child cluster object.  One record covers every child kind the
controller touches; fields that a kind does not use keep their defaults.
`replicas` is `Deployment.Spec.Replicas` (a nullable pointer in Go, hence
`Option`), `availableReplicas` is `Deployment.Status.AvailableReplicas`. -/
structure KObj where
  kind : String
  ns : String := ""
  name : String
  resourceVersion : String := ""
  owner : Option OwnerRef := none
  image : String := ""
  replicas : Option Int := none
  availableReplicas : Int := 0
  volumeSource : String := ""
  capacity : String := ""
  volumeName : String := ""
  claimName : String := ""
deriving DecidableEq

/-- A structured event recorded against the parent
(`record.EventRecorder.Event`). -/
structure KEvent where
  etype : String
  reason : String
  message : String
deriving DecidableEq

/-- A mutation issued to the cluster store by the controller. -/
inductive StoreOp where
  | createOp (kind name : String)
  | updateOp (kind name : String)
deriving DecidableEq

/-- The state threaded through the controller: the cluster store (objects and
parents), the helm-release environment, the controller's process-wide
installed-charts list (`Controller.charts`), the recorded events, the store
mutations, the helm uninstall calls, and an instrumentation trace recording
the order in which `syncHandler` invokes the syncers (its call sites at
controller.go lines 1405-1432). -/
structure World where
  objects : List KObj
  submarines : List Submarine
  installedReleases : List (String × String)
  charts : List String
  helmUninstalls : List String
  events : List KEvent
  ops : List StoreOp
  syncerTrace : List String
deriving DecidableEq

/-- Result of a Go function returning `(value, error)`: `ok` for a nil error,
`fail` for a non-nil error (the message), `nilDeref` for a nil-pointer
dereference panic. -/
inductive SyncRes (α : Type) where
  | ok : α → SyncRes α
  | fail : String → SyncRes α
  | nilDeref : SyncRes α
deriving DecidableEq

def serverName : String := "submarine-server"

def databaseName : String := "submarine-database"

def tensorboardName : String := "submarine-tensorboard"

def SuccessSynced : String := "Synced"

def ErrResourceExists : String := "ErrResourceExists"

/-- Rendering of `fmt.Sprintf(MessageResourceExists, name)` where
`MessageResourceExists = "Resource %q already exists and is not managed by Submarine"`. -/
def messageResourceExists (name : String) : String :=
  "Resource \"" ++ name ++ "\" already exists and is not managed by Submarine"

def MessageResourceSynced : String := "Submarine synced successfully"

/-- Work-queue intents (`const ( ADD = iota; UPDATE; DELETE )`). -/
def ADD : Nat := 0

def UPDATE : Nat := 1

def DELETE : Nat := 2

/-- An item of the work queue (`type WorkQueueItem struct`). -/
structure WorkQueueItem where
  key : String
  action : Nat
deriving DecidableEq

/-- Construction of `metav1.NewControllerRef(submarine, Kind "Submarine")`. -/
def newControllerRef (submarine : Submarine) : OwnerRef :=
  { kind := "Submarine", name := submarine.name, uid := submarine.uid }

/-- `metav1.IsControlledBy(obj, submarine)`: the controller owner reference
exists and carries the parent's UID. -/
def isControlledBy (o : KObj) (submarine : Submarine) : Bool :=
  match o.owner with
  | some ref => ref.uid == submarine.uid
  | none => false

/-- A namespaced lister `Get` (e.g. `c.serviceLister.Services(ns).Get(name)`),
served from the in-memory cache. -/
def listerGet (w : World) (kind ns name : String) : Option KObj :=
  w.objects.find? (fun o => o.kind == kind && o.ns == ns && o.name == name)

/-- A cluster-scoped lister `Get` (e.g. `c.persistentvolumeLister.Get(name)`,
`c.clusterroleLister.Get(name)`): no namespace in the key. -/
def listerGetCluster (w : World) (kind name : String) : Option KObj :=
  w.objects.find? (fun o => o.kind == kind && o.name == name)

/-- `c.submarinesLister.Submarines(ns).Get(name)`. -/
def getSubmarine (w : World) (ns name : String) : Option Submarine :=
  w.submarines.find? (fun s => s.ns == ns && s.name == name)

/-- A typed client `Create(ctx, obj)` call places the object in the client's
namespace (cluster-scoped clients pass `""`). -/
def inNs (o : KObj) (createNs : String) : KObj := { o with ns := createNs }

/-- A `Create` issued to the store: the object materialises in the target
namespace and the mutation is recorded. -/
def createObj (w : World) (createNs : String) (o : KObj) : World :=
  { w with objects := w.objects ++ [inNs o createNs],
           ops := w.ops ++ [StoreOp.createOp o.kind o.name] }

/-- An `Update` issued to the store: the stored object's spec is replaced by
the desired one while the store keeps its status (`availableReplicas`) and
resource version, per API-server semantics; the refreshed object is returned.
Updating an absent object yields a NotFound error. -/
def updateObjIn (w : World) (updNs : String) (desired : KObj) :
    World × SyncRes KObj :=
  match listerGet w desired.kind updNs desired.name with
  | none => (w, SyncRes.fail ("object \"" ++ desired.name ++ "\" not found"))
  | some old =>
    let updated : KObj :=
      { inNs desired updNs with
          resourceVersion := old.resourceVersion,
          availableReplicas := old.availableReplicas }
    ({ w with
         objects := w.objects.map (fun x =>
           if x.kind == desired.kind && x.ns == updNs && x.name == desired.name
           then updated else x),
         ops := w.ops ++ [StoreOp.updateOp desired.kind desired.name] },
     SyncRes.ok updated)

def recordEvent (w : World) (e : KEvent) : World :=
  { w with events := w.events ++ [e] }

/-- Emission of the `ErrResourceExists` warning event
(`c.recorder.Event(submarine, corev1.EventTypeWarning, ErrResourceExists, msg)`). -/
def warnConflict (w : World) (name : String) : World :=
  recordEvent w
    { etype := "Warning", reason := ErrResourceExists,
      message := messageResourceExists name }

/-- The block repeated throughout the syncers: look the child up in the
lister; if absent, `Create` the desired object; then require the controller
back-reference to point at the current parent, emitting the warning event and
returning an error on mismatch (controller.go lines 542-569 and the
analogous blocks of every other step). -/
def ensureStep (w : World) (submarine : Submarine) (createNs : String)
    (existing : Option KObj) (desired : KObj) : World × SyncRes KObj :=
  match existing with
  | none =>
    let created := inNs desired createNs
    let w1 := createObj w createNs desired
    if isControlledBy created submarine then (w1, SyncRes.ok created)
    else (warnConflict w1 created.name,
          SyncRes.fail (messageResourceExists created.name))
  | some o =>
    if isControlledBy o submarine then (w, SyncRes.ok o)
    else (warnConflict w o.name, SyncRes.fail (messageResourceExists o.name))

/-- `newSubmarineServerDeployment` (controller.go lines 399-466).  The Go
code dereferences `*submarine.Spec.Server.Replicas` unconditionally: a nil
pointer there is a panic, modelled as `none`. -/
def newSubmarineServerDeployment (submarine : Submarine) : Option KObj :=
  match submarine.spec.serverReplicas with
  | none => none
  | some serverReplicas =>
    let serverImage :=
      if submarine.spec.serverImage == "" then
        "apache/submarine:server-" ++ submarine.spec.version
      else submarine.spec.serverImage
    some { kind := "Deployment", name := serverName,
           owner := some (newControllerRef submarine),
           image := serverImage, replicas := some serverReplicas }

/-- `newSubmarineDatabaseDeployment` (controller.go lines 468-534).  The
replicas pointer is passed through without dereference; the image defaults
from the spec version when empty. -/
def newSubmarineDatabaseDeployment (submarine : Submarine) (pvcName : String) :
    KObj :=
  let databaseImage :=
    if submarine.spec.databaseImage == "" then
      "apache/submarine:database-" ++ submarine.spec.version
    else submarine.spec.databaseImage
  { kind := "Deployment", name := databaseName,
    owner := some (newControllerRef submarine),
    image := databaseImage, replicas := submarine.spec.databaseReplicas,
    claimName := pvcName }

/-- The `switch submarine.Spec.Storage.StorageType` selecting the
PersistentVolumeSource (controller.go lines 823-842 and 1077-1096): `nfs`
and `host` build a source, anything else is the warn-and-skip branch. -/
def persistentVolumeSourceOf (spec : SubmarineSpec) : Option String :=
  match spec.storageType with
  | "nfs" => some ("NFS(server=" ++ spec.nfsIP ++ ",path=" ++ spec.nfsPath ++ ")")
  | "host" => some ("HostPath(path=" ++ spec.hostPath ++ ",type=DirectoryOrCreate)")
  | _ => none

/-- PersistentVolumes are cluster-scoped, so the namespace is appended to the
name (`pvName := databaseName + "-pv--" + namespace`, line 818). -/
def databasePvName (ns : String) : String := databaseName ++ "-pv--" ++ ns

/-- `pvName := tensorboardName + "-pv--" + namespace` (line 1071). -/
def tensorboardPvName (ns : String) : String := tensorboardName ++ "-pv--" ++ ns

/-- Server syncer, Step3 tail: ownership check on the deployment followed by
the replica drift check (controller.go lines 631-647).  The drift guard
tests `submarine.Spec.Server.Replicas != nil` before dereferencing it, then
dereferences `*deployment.Spec.Replicas`; a drift rebuilds the desired
deployment and issues an `Update` in `submarine.Namespace`. -/
def serverCheckDeployment (w : World) (submarine : Submarine)
    (deployment : KObj) : World × SyncRes KObj :=
  if isControlledBy deployment submarine then
    match submarine.spec.serverReplicas with
    | none => (w, SyncRes.ok deployment)
    | some sr =>
      match deployment.replicas with
      | none => (w, SyncRes.nilDeref)
      | some dr =>
        if sr != dr then
          match newSubmarineServerDeployment submarine with
          | none => (w, SyncRes.nilDeref)
          | some desired => updateObjIn w submarine.ns desired
        else (w, SyncRes.ok deployment)
  else (warnConflict w deployment.name,
        SyncRes.fail (messageResourceExists deployment.name))

/-- Server syncer, Step3 head: get-or-create of the server deployment
(controller.go lines 617-629); the desired object is built only in the
NotFound branch, where a nil replicas pointer panics. -/
def serverAfterService (w : World) (submarine : Submarine) (ns : String) :
    World × SyncRes KObj :=
  match listerGet w "Deployment" ns serverName with
  | none =>
    match newSubmarineServerDeployment submarine with
    | none => (w, SyncRes.nilDeref)
    | some desired =>
      serverCheckDeployment (createObj w ns desired) submarine (inNs desired ns)
  | some deployment => serverCheckDeployment w submarine deployment

/-- Server syncer, Step2: the `submarine-server` Service. -/
def serverAfterSA (w : World) (submarine : Submarine) (ns : String) :
    World × SyncRes KObj :=
  match ensureStep w submarine ns (listerGet w "Service" ns serverName)
      { kind := "Service", name := serverName,
        owner := some (newControllerRef submarine) } with
  | (w1, SyncRes.fail e) => (w1, SyncRes.fail e)
  | (w1, SyncRes.nilDeref) => (w1, SyncRes.nilDeref)
  | (w1, SyncRes.ok _) => serverAfterService w1 submarine ns

/-- `newSubmarineServer` (controller.go lines 538-648): ServiceAccount,
Service, then Deployment with drift correction; returns the deployment. -/
def newSubmarineServer (w : World) (submarine : Submarine) (ns : String) :
    World × SyncRes KObj :=
  match ensureStep w submarine ns (listerGet w "ServiceAccount" ns serverName)
      { kind := "ServiceAccount", name := serverName,
        owner := some (newControllerRef submarine) } with
  | (w1, SyncRes.fail e) => (w1, SyncRes.fail e)
  | (w1, SyncRes.nilDeref) => (w1, SyncRes.nilDeref)
  | (w1, SyncRes.ok _) => serverAfterSA w1 submarine ns

/-- `newIngress` (controller.go lines 652-707): the single
`submarine-server-ingress` child. -/
def newIngress (w : World) (submarine : Submarine) (ns : String) :
    World × SyncRes Unit :=
  match ensureStep w submarine ns
      (listerGet w "Ingress" ns (serverName ++ "-ingress"))
      { kind := "Ingress", name := serverName ++ "-ingress",
        owner := some (newControllerRef submarine) } with
  | (w1, SyncRes.fail e) => (w1, SyncRes.fail e)
  | (w1, SyncRes.nilDeref) => (w1, SyncRes.nilDeref)
  | (w1, SyncRes.ok _) => (w1, SyncRes.ok ())

/-- RBAC syncer, Step2: the ClusterRoleBinding, cluster-scoped and named
`submarine-server` with no namespace suffix (controller.go lines 766-805). -/
def rbacAfterClusterRole (w : World) (submarine : Submarine) :
    World × SyncRes Unit :=
  match ensureStep w submarine ""
      (listerGetCluster w "ClusterRoleBinding" serverName)
      { kind := "ClusterRoleBinding", name := serverName,
        owner := some (newControllerRef submarine) } with
  | (w1, SyncRes.fail e) => (w1, SyncRes.fail e)
  | (w1, SyncRes.nilDeref) => (w1, SyncRes.nilDeref)
  | (w1, SyncRes.ok _) => (w1, SyncRes.ok ())

/-- `newSubmarineServerRBAC` (controller.go lines 711-808): ClusterRole then
ClusterRoleBinding, both cluster-scoped, both named `submarine-server`.  The
`serviceaccount_namespace` argument only feeds the binding's subject. -/
def newSubmarineServerRBAC (w : World) (submarine : Submarine)
    (serviceaccountNamespace : String) : World × SyncRes Unit :=
  match ensureStep w submarine ""
      (listerGetCluster w "ClusterRole" serverName)
      { kind := "ClusterRole", name := serverName,
        owner := some (newControllerRef submarine) } with
  | (w1, SyncRes.fail e) => (w1, SyncRes.fail e)
  | (w1, SyncRes.nilDeref) => (w1, SyncRes.nilDeref)
  | (w1, SyncRes.ok _) => rbacAfterClusterRole w1 submarine

/-- Database syncer, Step4: the `submarine-database` Service; on success the
syncer returns the database deployment (controller.go lines 959-1003). -/
def dbAfterDeployment (w : World) (submarine : Submarine) (ns : String)
    (deployment : KObj) : World × SyncRes (Option KObj) :=
  match ensureStep w submarine ns (listerGet w "Service" ns databaseName)
      { kind := "Service", name := databaseName,
        owner := some (newControllerRef submarine) } with
  | (w1, SyncRes.fail e) => (w1, SyncRes.fail e)
  | (w1, SyncRes.nilDeref) => (w1, SyncRes.nilDeref)
  | (w1, SyncRes.ok _) => (w1, SyncRes.ok (some deployment))

/-- Database syncer, Step3 tail: ownership check then replica drift check
(controller.go lines 943-957); the drift guard dereferences
`*deployment.Spec.Replicas` after testing only the spec pointer. -/
def dbCheckDeployment (w : World) (submarine : Submarine) (ns : String)
    (pvcName : String) (deployment : KObj) : World × SyncRes (Option KObj) :=
  if isControlledBy deployment submarine then
    match submarine.spec.databaseReplicas with
    | none => dbAfterDeployment w submarine ns deployment
    | some sr =>
      match deployment.replicas with
      | none => (w, SyncRes.nilDeref)
      | some dr =>
        if sr != dr then
          match updateObjIn w submarine.ns
              (newSubmarineDatabaseDeployment submarine pvcName) with
          | (w1, SyncRes.fail e) => (w1, SyncRes.fail e)
          | (w1, SyncRes.nilDeref) => (w1, SyncRes.nilDeref)
          | (w1, SyncRes.ok updated) => dbAfterDeployment w1 submarine ns updated
        else dbAfterDeployment w submarine ns deployment
  else (warnConflict w deployment.name,
        SyncRes.fail (messageResourceExists deployment.name))

/-- Database syncer, Step3 head: get-or-create of the database deployment
(controller.go lines 926-941). -/
def dbAfterPVC (w : World) (submarine : Submarine) (ns : String)
    (pvcName : String) : World × SyncRes (Option KObj) :=
  match listerGet w "Deployment" ns databaseName with
  | none =>
    dbCheckDeployment
      (createObj w ns (newSubmarineDatabaseDeployment submarine pvcName))
      submarine ns pvcName
      (inNs (newSubmarineDatabaseDeployment submarine pvcName) ns)
  | some deployment => dbCheckDeployment w submarine ns pvcName deployment

/-- Database syncer, Step2: the `submarine-database-pvc` claim on the PV
(controller.go lines 880-924). -/
def dbAfterPV (w : World) (submarine : Submarine) (ns : String)
    (pvName : String) : World × SyncRes (Option KObj) :=
  match ensureStep w submarine ns
      (listerGet w "PersistentVolumeClaim" ns (databaseName ++ "-pvc"))
      { kind := "PersistentVolumeClaim", name := databaseName ++ "-pvc",
        owner := some (newControllerRef submarine),
        capacity := submarine.spec.databaseStorageSize,
        volumeName := pvName } with
  | (w1, SyncRes.fail e) => (w1, SyncRes.fail e)
  | (w1, SyncRes.nilDeref) => (w1, SyncRes.nilDeref)
  | (w1, SyncRes.ok _) => dbAfterPVC w1 submarine ns (databaseName ++ "-pvc")

/-- Database syncer, Step1 tail: ownership check on the PersistentVolume. -/
def dbPVCheck (w : World) (submarine : Submarine) (ns : String)
    (pvName : String) (pv : KObj) : World × SyncRes (Option KObj) :=
  if isControlledBy pv submarine then dbAfterPV w submarine ns pvName
  else (warnConflict w pv.name, SyncRes.fail (messageResourceExists pv.name))

/-- `newSubmarineDatabase` (controller.go lines 812-1004).  An unrecognised
storage type in the PV-creation branch logs a warning and returns
`(nil, nil)` - no error and no deployment (lines 839-842). -/
def newSubmarineDatabase (w : World) (submarine : Submarine) (ns : String) :
    World × SyncRes (Option KObj) :=
  match listerGetCluster w "PersistentVolume" (databasePvName ns) with
  | none =>
    match persistentVolumeSourceOf submarine.spec with
    | none => (w, SyncRes.ok none)
    | some src =>
      dbPVCheck
        (createObj w ""
          { kind := "PersistentVolume", name := databasePvName ns,
            owner := some (newControllerRef submarine),
            volumeSource := src,
            capacity := submarine.spec.databaseStorageSize })
        submarine ns (databasePvName ns)
        (inNs
          { kind := "PersistentVolume", name := databasePvName ns,
            owner := some (newControllerRef submarine),
            volumeSource := src,
            capacity := submarine.spec.databaseStorageSize } "")
  | some pv => dbPVCheck w submarine ns (databasePvName ns) pv

/-- Tensorboard syncer, Step5: the `submarine-tensorboard-ingressroute`
(controller.go lines 1307-1357). -/
def tbAfterService (w : World) (submarine : Submarine) (ns : String) :
    World × SyncRes Unit :=
  match ensureStep w submarine ns
      (listerGet w "IngressRoute" ns (tensorboardName ++ "-ingressroute"))
      { kind := "IngressRoute", name := tensorboardName ++ "-ingressroute",
        owner := some (newControllerRef submarine) } with
  | (w1, SyncRes.fail e) => (w1, SyncRes.fail e)
  | (w1, SyncRes.nilDeref) => (w1, SyncRes.nilDeref)
  | (w1, SyncRes.ok _) => (w1, SyncRes.ok ())

/-- Tensorboard syncer, Step4: the `submarine-tensorboard-service`
(controller.go lines 1262-1305). -/
def tbAfterDeployment (w : World) (submarine : Submarine) (ns : String) :
    World × SyncRes Unit :=
  match ensureStep w submarine ns
      (listerGet w "Service" ns (tensorboardName ++ "-service"))
      { kind := "Service", name := tensorboardName ++ "-service",
        owner := some (newControllerRef submarine) } with
  | (w1, SyncRes.fail e) => (w1, SyncRes.fail e)
  | (w1, SyncRes.nilDeref) => (w1, SyncRes.nilDeref)
  | (w1, SyncRes.ok _) => tbAfterService w1 submarine ns

/-- Tensorboard syncer, Step3: the tensorboard Deployment (controller.go
lines 1181-1260); no replica field is set and no drift check is made. -/
def tbAfterPVC (w : World) (submarine : Submarine) (ns : String)
    (pvcName : String) : World × SyncRes Unit :=
  match ensureStep w submarine ns (listerGet w "Deployment" ns tensorboardName)
      { kind := "Deployment", name := tensorboardName,
        owner := some (newControllerRef submarine),
        image := "tensorflow/tensorflow:1.11.0", claimName := pvcName } with
  | (w1, SyncRes.fail e) => (w1, SyncRes.fail e)
  | (w1, SyncRes.nilDeref) => (w1, SyncRes.nilDeref)
  | (w1, SyncRes.ok _) => tbAfterDeployment w1 submarine ns

/-- Tensorboard syncer, Step2: the `submarine-tensorboard-pvc` claim
(controller.go lines 1135-1179). -/
def tbAfterPV (w : World) (submarine : Submarine) (ns : String)
    (spec : SubmarineSpec) (pvName : String) : World × SyncRes Unit :=
  match ensureStep w submarine ns
      (listerGet w "PersistentVolumeClaim" ns (tensorboardName ++ "-pvc"))
      { kind := "PersistentVolumeClaim", name := tensorboardName ++ "-pvc",
        owner := some (newControllerRef submarine),
        capacity := spec.tensorboardStorageSize, volumeName := pvName } with
  | (w1, SyncRes.fail e) => (w1, SyncRes.fail e)
  | (w1, SyncRes.nilDeref) => (w1, SyncRes.nilDeref)
  | (w1, SyncRes.ok _) => tbAfterPVC w1 submarine ns (tensorboardName ++ "-pvc")

/-- Tensorboard syncer, Step1 tail: ownership check on the PV. -/
def tbPVCheck (w : World) (submarine : Submarine) (ns : String)
    (spec : SubmarineSpec) (pvName : String) (pv : KObj) :
    World × SyncRes Unit :=
  if isControlledBy pv submarine then tbAfterPV w submarine ns spec pvName
  else (warnConflict w pv.name, SyncRes.fail (messageResourceExists pv.name))

/-- `newSubmarineTensorboard` (controller.go lines 1064-1360).  The same
storage-type switch as the database: an unrecognised type warns and returns
nil before creating anything (lines 1093-1095). -/
def newSubmarineTensorboard (w : World) (submarine : Submarine) (ns : String)
    (spec : SubmarineSpec) : World × SyncRes Unit :=
  match listerGetCluster w "PersistentVolume" (tensorboardPvName ns) with
  | none =>
    match persistentVolumeSourceOf spec with
    | none => (w, SyncRes.ok ())
    | some src =>
      tbPVCheck
        (createObj w ""
          { kind := "PersistentVolume", name := tensorboardPvName ns,
            owner := some (newControllerRef submarine),
            volumeSource := src, capacity := spec.tensorboardStorageSize })
        submarine ns spec (tensorboardPvName ns)
        (inNs
          { kind := "PersistentVolume", name := tensorboardPvName ns,
            owner := some (newControllerRef submarine),
            volumeSource := src, capacity := spec.tensorboardStorageSize } "")
  | some pv => tbPVCheck w submarine ns spec (tensorboardPvName ns) pv

/-- `helm.CheckRelease(name, namespace)`: the idempotent installed probe. -/
def checkRelease (w : World) (name ns : String) : Bool :=
  w.installedReleases.contains (name, ns)

/-- `helm.HelmInstallLocalChart`: installs the release and appends the
returned handle to the process-wide `c.charts` list. -/
def installChart (w : World) (name ns : String) : World :=
  { w with charts := w.charts ++ [name],
           installedReleases := w.installedReleases ++ [(name, ns)] }

/-- `newSubCharts` (controller.go lines 1008-1060): installs each of the four
releases if absent; always returns a nil error. -/
def newSubCharts (w : World) (ns : String) : World :=
  let w := if checkRelease w "traefik" ns then w else installChart w "traefik" ns
  let w := if checkRelease w "notebook-controller" ns then w
           else installChart w "notebook-controller" ns
  let w := if checkRelease w "tfjob" ns then w else installChart w "tfjob" ns
  let w := if checkRelease w "pytorchjob" ns then w
           else installChart w "pytorchjob" ns
  w

/-- `helm.HelmUninstall(chart)`: one uninstall call for one handle. -/
def helmUninstall (w : World) (chart : String) : World :=
  { w with helmUninstalls := w.helmUninstalls ++ [chart],
           installedReleases := w.installedReleases.filter
             (fun p => p.1 != chart) }

/-- `updateSubmarineStatus` writing the parent back through the clientset
`Update` (replace by namespace and name). -/
def updateSubmarine (w : World) (submarineCopy : Submarine) : World :=
  { w with submarines := w.submarines.map (fun s =>
      if s.ns == submarineCopy.ns && s.name == submarineCopy.name
      then submarineCopy else s) }

/-- `updateSubmarineStatus` (controller.go lines 1452-1458). The Go code
reads `serverDeployment.Status.AvailableReplicas` and
`databaseDeployment.Status.AvailableReplicas` from possibly-nil pointers:
a nil argument is a panic. -/
def updateSubmarineStatus (w : World) (submarine : Submarine)
    (serverDeployment databaseDeployment : Option KObj) :
    World × SyncRes Unit :=
  match serverDeployment with
  | none => (w, SyncRes.nilDeref)
  | some sd =>
    match databaseDeployment with
    | none => (w, SyncRes.nilDeref)
    | some dd =>
      let submarineCopy :=
        { submarine with
            status := { availableServerReplicas := sd.availableReplicas,
                        availableDatabaseReplicas := dd.availableReplicas } }
      (updateSubmarine w submarineCopy, SyncRes.ok ())

/-- Splitting a character list on the slash separator, the semantics of
`strings.Split(key, "/")`. -/
def splitSlash (cs : List Char) : List (List Char) :=
  match cs with
  | [] => [[]]
  | c :: rest =>
    let r := splitSlash rest
    if c = '/' then [] :: r
    else
      match r with
      | [] => [[c]]
      | g :: gs => (c :: g) :: gs

/-- `cache.SplitMetaNamespaceKey`: one part means cluster-wide (empty
namespace), two parts mean namespace/name, more are an error. -/
def splitMetaNamespaceKey (key : String) : Option (String × String) :=
  match splitSlash key.data with
  | [name] => some ("", String.mk name)
  | [ns, name] => some (String.mk ns, String.mk name)
  | _ => none

/-- Instrumentation marker for one syncer invocation by `syncHandler`. -/
def traceSyncer (w : World) (s : String) : World :=
  { w with syncerTrace := w.syncerTrace ++ [s] }

/-- `syncHandler` (controller.go lines 1365-1450).  Non-Delete: fetch the
parent (NotFound is a clean no-op), install sub-charts, then run the syncers
in source order - server, database, ingress, RBAC, tensorboard - aborting on
the first error, finally update the parent status and emit the Synced event.
Delete: uninstall every handle in `c.charts` and clear the list. -/
def syncHandler (w : World) (workqueueItem : WorkQueueItem) :
    World × SyncRes Unit :=
  match splitMetaNamespaceKey workqueueItem.key with
  | none => (w, SyncRes.ok ())
  | some (ns, name) =>
    if workqueueItem.action ≠ DELETE then
      match getSubmarine w ns name with
      | none => (w, SyncRes.ok ())
      | some submarine =>
        let w0 := newSubCharts w ns
        match newSubmarineServer (traceSyncer w0 "server") submarine ns with
        | (w1, SyncRes.fail e) => (w1, SyncRes.fail e)
        | (w1, SyncRes.nilDeref) => (w1, SyncRes.nilDeref)
        | (w1, SyncRes.ok serverDeployment) =>
          match newSubmarineDatabase (traceSyncer w1 "database") submarine ns with
          | (w2, SyncRes.fail e) => (w2, SyncRes.fail e)
          | (w2, SyncRes.nilDeref) => (w2, SyncRes.nilDeref)
          | (w2, SyncRes.ok databaseDeployment) =>
            match newIngress (traceSyncer w2 "ingress") submarine ns with
            | (w3, SyncRes.fail e) => (w3, SyncRes.fail e)
            | (w3, SyncRes.nilDeref) => (w3, SyncRes.nilDeref)
            | (w3, SyncRes.ok _) =>
              match newSubmarineServerRBAC (traceSyncer w3 "rbac") submarine ns with
              | (w4, SyncRes.fail e) => (w4, SyncRes.fail e)
              | (w4, SyncRes.nilDeref) => (w4, SyncRes.nilDeref)
              | (w4, SyncRes.ok _) =>
                match newSubmarineTensorboard (traceSyncer w4 "tensorboard")
                    submarine ns submarine.spec with
                | (w5, SyncRes.fail e) => (w5, SyncRes.fail e)
                | (w5, SyncRes.nilDeref) => (w5, SyncRes.nilDeref)
                | (w5, SyncRes.ok _) =>
                  match updateSubmarineStatus w5 submarine
                      (some serverDeployment) databaseDeployment with
                  | (w6, SyncRes.fail e) => (w6, SyncRes.fail e)
                  | (w6, SyncRes.nilDeref) => (w6, SyncRes.nilDeref)
                  | (w6, SyncRes.ok _) =>
                    (recordEvent w6
                      { etype := "Normal", reason := SuccessSynced,
                        message := MessageResourceSynced },
                     SyncRes.ok ())
    else
      let w1 := w.charts.foldl helmUninstall w
      ({ w1 with charts := [] }, SyncRes.ok ())

/-- Intent collapsing of the work queue, modelled from the spec (section
4.A): the later intent wins for Add and Update, while a pending Delete
supersedes anything for the same key. -/
def mergeIntent (oldAction newAction : Nat) : Nat :=
  if oldAction = DELETE then DELETE else newAction

/-- Replace the first item with the same key by the collapsed item, or append
when the key is new (spec 4.A: at most one item per key is pending). -/
def upsertItem (l : List WorkQueueItem) (item : WorkQueueItem) :
    List WorkQueueItem :=
  match l with
  | [] => [item]
  | x :: xs =>
    if x.key == item.key then
      { key := item.key, action := mergeIntent x.action item.action } :: xs
    else x :: upsertItem xs item

/-- Modelled from the spec: the deduplicating rate-limited work queue of
section 4.A.  The client-go `workqueue.RateLimitingInterface` implementation
behind `Controller.workqueue` is not among the sources under src/ (only its
declaration at controller.go line 113 and its callers are), so the queue
state and operations follow the spec's contract: a pending FIFO with at most
one item per key, an in-flight key set whose re-adds are parked until
`Done`, and a per-key failure counter for the rate limiter. -/
structure WorkQueue where
  pending : List WorkQueueItem
  inflight : List String
  dirty : List WorkQueueItem
  failures : List (String × Nat)
deriving DecidableEq

/-- Modelled from the spec: `Add(item)` - idempotent; a duplicate of a
pending or in-flight key is collapsed by `mergeIntent` (spec 4.A). -/
def WorkQueue.add (q : WorkQueue) (item : WorkQueueItem) : WorkQueue :=
  if q.inflight.contains item.key then
    { q with dirty := upsertItem q.dirty item }
  else
    { q with pending := upsertItem q.pending item }

/-- Modelled from the spec: `Done(item)` releases the in-flight mark; a key
re-added while in flight becomes ready immediately (spec 4.A). -/
def WorkQueue.done (q : WorkQueue) (item : WorkQueueItem) : WorkQueue :=
  let q1 := { q with inflight := q.inflight.filter (fun k => k != item.key) }
  match q.dirty.find? (fun x => x.key == item.key) with
  | some d =>
    { q1 with dirty := q1.dirty.filter (fun x => x.key != item.key),
              pending := upsertItem q1.pending d }
  | none => q1

/-- Modelled from the spec: `AddRateLimited(item)` re-enqueues after a
backoff driven by the per-key failure counter (spec 4.A); the backoff delay
itself is not modelled, only the counter and the re-add. -/
def WorkQueue.addRateLimited (q : WorkQueue) (item : WorkQueueItem) :
    WorkQueue :=
  let n := ((q.failures.find? (fun p => p.1 == item.key)).map Prod.snd).getD 0
  WorkQueue.add
    { q with failures :=
        (q.failures.filter (fun p => p.1 != item.key)) ++ [(item.key, n + 1)] }
    item

/-- Modelled from the spec: `Forget(item)` resets the per-key failure
counter (spec 4.A). -/
def WorkQueue.forget (q : WorkQueue) (item : WorkQueueItem) : WorkQueue :=
  { q with failures := q.failures.filter (fun p => p.1 != item.key) }

/-- `enqueueSubmarine` (controller.go lines 1463-1477): derive the
`namespace/name` key (`cache.MetaNamespaceKeyFunc`) and add the keyed item. -/
def metaNamespaceKeyFunc (ns name : String) : String :=
  if ns == "" then name else ns ++ "/" ++ name

def enqueueSubmarine (q : WorkQueue) (obj : Submarine) (action : Nat) :
    WorkQueue :=
  WorkQueue.add q { key := metaNamespaceKeyFunc obj.ns obj.name, action := action }

/-- The Submarine informer UpdateFunc (controller.go lines 190-192): it
enqueues the new parent with intent UPDATE and performs no resource-version
comparison. -/
def submarineUpdateFunc (q : WorkQueue) (oldSub newSub : Submarine) :
    WorkQueue :=
  enqueueSubmarine q newSub UPDATE

/-- `handleObject` (controller.go lines 1484-1517): resolve the controller
owner reference; drop non-Submarine owners and orphans whose parent is gone
from the cache; otherwise enqueue the owning parent with intent UPDATE. -/
def handleObject (w : World) (q : WorkQueue) (obj : KObj) : WorkQueue :=
  match obj.owner with
  | none => q
  | some ownerRef =>
    if ownerRef.kind ≠ "Submarine" then q
    else
      match getSubmarine w obj.ns ownerRef.name with
      | none => q
      | some submarine => enqueueSubmarine q submarine UPDATE

/-- The UpdateFunc installed for every watched child kind (controller.go
lines 199-318): the ten handler closures - namespace, deployment, service,
serviceaccount, persistentvolume, persistentvolumeclaim, ingress,
ingressroute, clusterrole, clusterrolebinding - are identical up to the Go
type assertion: drop the delta when old and new resource versions are equal,
otherwise dispatch through `handleObject`. -/
def childUpdateFunc (w : World) (q : WorkQueue) (oldObj newObj : KObj) :
    WorkQueue :=
  if newObj.resourceVersion == oldObj.resourceVersion then q
  else handleObject w q newObj

/-- `processNextWorkItem` (controller.go lines 359-397), for one popped item:
run `syncHandler`; on error `AddRateLimited` the item, on success `Forget`
it; the deferred `Done` runs in every case (also while a panic unwinds). -/
def processNextWorkItem (w : World) (q : WorkQueue) (item : WorkQueueItem) :
    World × WorkQueue × SyncRes Unit :=
  match syncHandler w item with
  | (w1, SyncRes.ok _) =>
    (w1, WorkQueue.done (WorkQueue.forget q item) item, SyncRes.ok ())
  | (w1, SyncRes.fail e) =>
    (w1, WorkQueue.done (WorkQueue.addRateLimited q item) item, SyncRes.fail e)
  | (w1, SyncRes.nilDeref) =>
    (w1, WorkQueue.done q item, SyncRes.nilDeref)

/-! Concrete fixtures used by witnesses and counterexamples. -/

/-- A world with the given store contents and no helm or controller state. -/
def fixWorld (objs : List KObj) (subs : List Submarine) : World :=
  { objects := objs, submarines := subs, installedReleases := [],
    charts := [], helmUninstalls := [], events := [], ops := [],
    syncerTrace := [] }

/-- The S1 parent of the spec: host storage, one server replica. -/
def exHost : Submarine :=
  { ns := "default", name := "ex", uid := 1, resourceVersion := "1",
    spec := { version := "0.6", serverImage := "", serverReplicas := some 1,
              databaseImage := "", databaseReplicas := some 1,
              databaseStorageSize := "10Gi", tensorboardStorageSize := "1Gi",
              storageType := "host", nfsIP := "", nfsPath := "",
              hostPath := "/tmp/sub" },
    status := { availableServerReplicas := 0, availableDatabaseReplicas := 0 } }

/-- The S4 parent of the spec: unrecognised storage type `foo`. -/
def exFoo : Submarine :=
  { exHost with spec := { exHost.spec with storageType := "foo", hostPath := "" } }

/-- A parent whose `spec.server.replicas` pointer is nil. -/
def exNilRep : Submarine :=
  { exHost with spec := { exHost.spec with serverReplicas := none } }

/-- Controller owner reference of the fixture parents (uid 1). -/
def ownedRef : Option OwnerRef :=
  some { kind := "Submarine", name := "ex", uid := 1 }

def saObj : KObj :=
  { kind := "ServiceAccount", ns := "default", name := serverName, owner := ownedRef }

def svcObj : KObj :=
  { kind := "Service", ns := "default", name := serverName, owner := ownedRef }

def srvDep : KObj :=
  { kind := "Deployment", ns := "default", name := serverName, owner := ownedRef,
    image := "apache/submarine:server-0.6", replicas := some 1,
    availableReplicas := 1 }

def dbDep : KObj :=
  { kind := "Deployment", ns := "default", name := databaseName, owner := ownedRef,
    image := "apache/submarine:database-0.6", replicas := some 1,
    availableReplicas := 1, claimName := "submarine-database-pvc" }

def wFull : World :=
  fixWorld
    [saObj, svcObj, srvDep,
     { kind := "PersistentVolume", name := databasePvName "default", owner := ownedRef },
     { kind := "PersistentVolumeClaim", ns := "default", name := databaseName ++ "-pvc", owner := ownedRef },
     dbDep,
     { kind := "Service", ns := "default", name := databaseName, owner := ownedRef },
     { kind := "Ingress", ns := "default", name := serverName ++ "-ingress", owner := ownedRef },
     { kind := "ClusterRole", name := serverName, owner := ownedRef },
     { kind := "ClusterRoleBinding", name := serverName, owner := ownedRef },
     { kind := "PersistentVolume", name := tensorboardPvName "default", owner := ownedRef },
     { kind := "PersistentVolumeClaim", ns := "default", name := tensorboardName ++ "-pvc", owner := ownedRef },
     { kind := "Deployment", ns := "default", name := tensorboardName, owner := ownedRef },
     { kind := "Service", ns := "default", name := tensorboardName ++ "-service", owner := ownedRef },
     { kind := "IngressRoute", ns := "default", name := tensorboardName ++ "-ingressroute", owner := ownedRef }]
    [exHost]

/-- `wFull` with the database deployment squatted by a foreign owner. -/
def wDbSquat : World :=
  { wFull with objects := wFull.objects.map (fun o =>
      if o.kind == "Deployment" && o.name == databaseName
      then { o with owner := none } else o) }

/-- `wFull` with the server deployment squatted by a foreign owner. -/
def wSrvSquat : World :=
  fixWorld [saObj, svcObj, { srvDep with owner := none }] [exHost]

/-- The world for the invalid-storage scenario S4: empty store. -/
def wFoo : World := fixWorld [] [exFoo]

def itemFoo : WorkQueueItem := { key := "default/ex", action := UPDATE }

/-- An owned server deployment alone in the store, parent with nil replicas. -/
def wSrvOwned : World := fixWorld [srvDep] [exNilRep]

def subNs1 : Submarine := { exHost with ns := "ns1" }

def subNs2 : Submarine := { exHost with ns := "ns2" }

def wNs1 : World := fixWorld [] [subNs1]

def wNs2 : World := fixWorld [] [subNs2]

def emptyQueue : WorkQueue :=
  { pending := [], inflight := [], dirty := [], failures := [] }

/-- A world holding two installed chart handles, for the delete branch. -/
def wCharts : World :=
  { fixWorld [] [exHost] with
      charts := ["traefik", "tfjob"],
      installedReleases := [("traefik", "default"), ("tfjob", "default")],
      helmUninstalls := ["old"] }

def itemDel : WorkQueueItem := { key := "default/ex", action := DELETE }

def itemUp : WorkQueueItem := { key := "default/ex", action := UPDATE }

/-- Key uniqueness of a queue segment: no two items share a key (spec 4.A,
at most one pending item per key). -/
def keysUniqueB (l : List WorkQueueItem) : Bool :=
  match l with
  | [] => true
  | x :: xs => !(xs.any (fun y => y.key == x.key)) && keysUniqueB xs

def qW : WorkQueue :=
  { pending := [{ key := "default/ex", action := ADD }], inflight := [],
    dirty := [], failures := [] }

theorem append_right_inj (s a b : String) (h : s ++ a = s ++ b) : a = b := by
  have hd : (s ++ a).data = (s ++ b).data := by rw [h]
  simp only [String.data_append] at hd
  exact String.ext (List.append_cancel_left hd)

theorem C10_database_image_default (submarine : Submarine) (pvcName : String) :
    (submarine.spec.databaseImage = "" →
      (newSubmarineDatabaseDeployment submarine pvcName).image =
        "apache/submarine:database-" ++ submarine.spec.version) ∧
    (submarine.spec.databaseImage ≠ "" →
      (newSubmarineDatabaseDeployment submarine pvcName).image =
        submarine.spec.databaseImage) := by
  constructor <;> intro h <;>
    simp [newSubmarineDatabaseDeployment, h]

theorem C10_witness :
    exFoo.spec.databaseImage = "" ∧
    (newSubmarineDatabaseDeployment exFoo "submarine-database-pvc").image =
      "apache/submarine:database-0.6" :=
  ⟨rfl, (C10_database_image_default exFoo "submarine-database-pvc").1 rfl⟩

theorem C7_counterexample :
    StoreOp.createOp "ClusterRole" serverName ∈
      (newSubmarineServerRBAC wNs1 subNs1 "ns1").1.ops ∧
    StoreOp.createOp "ClusterRole" serverName ∈
      (newSubmarineServerRBAC wNs2 subNs2 "ns2").1.ops ∧
    subNs1.ns ≠ subNs2.ns := by decide

theorem C7_pv_suffix (n1 n2 : String) :
    (databasePvName n1 = databasePvName n2 → n1 = n2) ∧
    (tensorboardPvName n1 = tensorboardPvName n2 → n1 = n2) := by
  constructor <;> intro h <;>
    [exact append_right_inj _ _ _ h; exact append_right_inj _ _ _ h]

theorem C7_witness :
    databasePvName "a" = databasePvName "a" ∧ ("a" : String) = "a" :=
  ⟨rfl, (C7_pv_suffix "a" "a").1 rfl⟩

theorem C9_counterexample :
    exNilRep.spec.serverReplicas = none ∧
    (newSubmarineServer wSrvOwned exNilRep "default").2 = SyncRes.ok srvDep := by
  decide

theorem C9_nil_replicas (submarine : Submarine) (w : World) (ns : String)
    (dep : KObj) (hnil : submarine.spec.serverReplicas = none) :
    newSubmarineServerDeployment submarine = none ∧
    (listerGet w "Deployment" ns serverName = none →
      serverAfterService w submarine ns = (w, SyncRes.nilDeref)) ∧
    (listerGet w "Deployment" ns serverName = some dep →
      isControlledBy dep submarine = true →
      serverAfterService w submarine ns = (w, SyncRes.ok dep)) := by
  refine ⟨?_, ?_, ?_⟩
  · simp [newSubmarineServerDeployment, hnil]
  · intro h
    simp [serverAfterService, h, newSubmarineServerDeployment, hnil]
  · intro h hc
    simp [serverAfterService, h, serverCheckDeployment, hc, hnil]

theorem C9_witness :
    listerGet wSrvOwned "Deployment" "default" serverName = some srvDep ∧
    isControlledBy srvDep exNilRep = true ∧
    serverAfterService wSrvOwned exNilRep "default" = (wSrvOwned, SyncRes.ok srvDep) :=
  ⟨by decide, by decide,
   (C9_nil_replicas exNilRep wSrvOwned "default" srvDep rfl).2.2 (by decide) (by decide)⟩

theorem C6_counterexample :
    exFoo.resourceVersion = exFoo.resourceVersion ∧
    submarineUpdateFunc emptyQueue exFoo exFoo ≠ emptyQueue ∧
    (submarineUpdateFunc emptyQueue exFoo exFoo).pending =
      [{ key := "default/ex", action := UPDATE }] := by decide

theorem C6_child_update_suppressed (w : World) (q : WorkQueue)
    (oldObj newObj : KObj)
    (h : newObj.resourceVersion = oldObj.resourceVersion) :
    childUpdateFunc w q oldObj newObj = q ∧
    ∀ (oldSub newSub : Submarine),
      submarineUpdateFunc q oldSub newSub =
        WorkQueue.add q
          { key := metaNamespaceKeyFunc newSub.ns newSub.name, action := UPDATE } := by
  constructor
  · simp [childUpdateFunc, h]
  · intro oldSub newSub
    rfl

theorem C6_witness :
    saObj.resourceVersion = saObj.resourceVersion ∧
    childUpdateFunc wFull emptyQueue saObj saObj = emptyQueue :=
  ⟨rfl, (C6_child_update_suppressed wFull emptyQueue saObj saObj rfl).1⟩

theorem C1_invalid_storage_code_bug :
    (syncHandler wFoo itemFoo).2 = SyncRes.nilDeref ∧
    listerGetCluster (syncHandler wFoo itemFoo).1 "PersistentVolume"
      (databasePvName "default") = none ∧
    listerGet (syncHandler wFoo itemFoo).1 "PersistentVolumeClaim" "default"
      (databaseName ++ "-pvc") = none ∧
    listerGetCluster (syncHandler wFoo itemFoo).1 "PersistentVolume"
      (tensorboardPvName "default") = none ∧
    listerGet (syncHandler wFoo itemFoo).1 "PersistentVolumeClaim" "default"
      (tensorboardName ++ "-pvc") = none ∧
    (listerGet (syncHandler wFoo itemFoo).1 "ServiceAccount" "default"
      serverName).isSome = true ∧
    (listerGet (syncHandler wFoo itemFoo).1 "Service" "default"
      serverName).isSome = true ∧
    (listerGet (syncHandler wFoo itemFoo).1 "Deployment" "default"
      serverName).isSome = true ∧
    (listerGet (syncHandler wFoo itemFoo).1 "Ingress" "default"
      (serverName ++ "-ingress")).isSome = true ∧
    (listerGetCluster (syncHandler wFoo itemFoo).1 "ClusterRole"
      serverName).isSome = true ∧
    (listerGetCluster (syncHandler wFoo itemFoo).1 "ClusterRoleBinding"
      serverName).isSome = true := by decide

theorem foldl_helmUninstall (cs : List String) (w : World) :
    (cs.foldl helmUninstall w).helmUninstalls = w.helmUninstalls ++ cs ∧
    (cs.foldl helmUninstall w).charts = w.charts ∧
    (cs.foldl helmUninstall w).objects = w.objects ∧
    (cs.foldl helmUninstall w).ops = w.ops ∧
    (cs.foldl helmUninstall w).submarines = w.submarines := by
  induction cs generalizing w with
  | nil => simp
  | cons c cs ih =>
    simpa [helmUninstall, List.append_assoc] using ih (helmUninstall w c)

theorem C8_delete_uninstalls_all (w : World) (item : WorkQueueItem)
    (ns name : String)
    (hkey : splitMetaNamespaceKey item.key = some (ns, name))
    (hdel : item.action = DELETE) :
    syncHandler w item =
      ({ w.charts.foldl helmUninstall w with charts := [] }, SyncRes.ok ()) ∧
    (syncHandler w item).1.helmUninstalls = w.helmUninstalls ++ w.charts ∧
    (syncHandler w item).1.charts = [] ∧
    (syncHandler w item).1.objects = w.objects ∧
    (syncHandler w item).1.ops = w.ops := by
  have hmain : syncHandler w item =
      ({ w.charts.foldl helmUninstall w with charts := [] }, SyncRes.ok ()) := by
    unfold syncHandler
    rw [hkey, hdel]
    simp
  refine ⟨hmain, ?_, ?_, ?_, ?_⟩ <;>
    rw [hmain] <;> simp [foldl_helmUninstall]

theorem C8_witness :
    splitMetaNamespaceKey itemDel.key = some ("default", "ex") ∧
    itemDel.action = DELETE ∧
    (syncHandler wCharts itemDel).1.helmUninstalls =
      ["old", "traefik", "tfjob"] ∧
    (syncHandler wCharts itemDel).1.charts = [] :=
  ⟨by decide, rfl,
   by
     have h := C8_delete_uninstalls_all wCharts itemDel "default" "ex"
       (by decide) rfl
     rw [h.2.1]
     rfl,
   (C8_delete_uninstalls_all wCharts itemDel "default" "ex" (by decide) rfl).2.2.1⟩

theorem updateObjIn_pres (w : World) (n : String) (d : KObj) :
    ((updateObjIn w n d).1).submarines = w.submarines ∧
    ((updateObjIn w n d).1).syncerTrace = w.syncerTrace := by
  unfold updateObjIn
  split <;> simp

theorem ensureStep_pres (w : World) (s : Submarine) (cns : String)
    (ex : Option KObj) (d : KObj) :
    ((ensureStep w s cns ex d).1).submarines = w.submarines ∧
    ((ensureStep w s cns ex d).1).syncerTrace = w.syncerTrace := by
  unfold ensureStep
  constructor <;>
    (split <;> simp [createObj, warnConflict, recordEvent] <;>
      split <;> simp)

theorem serverCheckDeployment_pres (w : World) (s : Submarine) (d : KObj) :
    ((serverCheckDeployment w s d).1).submarines = w.submarines ∧
    ((serverCheckDeployment w s d).1).syncerTrace = w.syncerTrace := by
  unfold serverCheckDeployment
  repeat' split
  all_goals simp [warnConflict, recordEvent, updateObjIn_pres]

theorem serverAfterService_pres (w : World) (s : Submarine) (ns : String) :
    ((serverAfterService w s ns).1).submarines = w.submarines ∧
    ((serverAfterService w s ns).1).syncerTrace = w.syncerTrace := by
  unfold serverAfterService
  repeat' split
  all_goals simp [serverCheckDeployment_pres, createObj]

theorem serverAfterSA_pres (w : World) (s : Submarine) (ns : String) :
    ((serverAfterSA w s ns).1).submarines = w.submarines ∧
    ((serverAfterSA w s ns).1).syncerTrace = w.syncerTrace := by
  unfold serverAfterSA
  split <;> rename_i heq <;>
    (try (have h1 := congrArg Prod.fst heq; subst h1)) <;>
    simp [ensureStep_pres, serverAfterService_pres]

theorem newSubmarineServer_pres (w : World) (s : Submarine) (ns : String) :
    ((newSubmarineServer w s ns).1).submarines = w.submarines ∧
    ((newSubmarineServer w s ns).1).syncerTrace = w.syncerTrace := by
  unfold newSubmarineServer
  split <;> rename_i heq <;>
    (try (have h1 := congrArg Prod.fst heq; subst h1)) <;>
    simp [ensureStep_pres, serverAfterSA_pres]

theorem newIngress_pres (w : World) (s : Submarine) (ns : String) :
    ((newIngress w s ns).1).submarines = w.submarines ∧
    ((newIngress w s ns).1).syncerTrace = w.syncerTrace := by
  unfold newIngress
  split <;> rename_i heq <;>
    (try (have h1 := congrArg Prod.fst heq; subst h1)) <;>
    simp [ensureStep_pres]

theorem rbacAfterClusterRole_pres (w : World) (s : Submarine) :
    ((rbacAfterClusterRole w s).1).submarines = w.submarines ∧
    ((rbacAfterClusterRole w s).1).syncerTrace = w.syncerTrace := by
  unfold rbacAfterClusterRole
  split <;> rename_i heq <;>
    (try (have h1 := congrArg Prod.fst heq; subst h1)) <;>
    simp [ensureStep_pres]

theorem newSubmarineServerRBAC_pres (w : World) (s : Submarine) (sn : String) :
    ((newSubmarineServerRBAC w s sn).1).submarines = w.submarines ∧
    ((newSubmarineServerRBAC w s sn).1).syncerTrace = w.syncerTrace := by
  unfold newSubmarineServerRBAC
  split <;> rename_i heq <;>
    (try (have h1 := congrArg Prod.fst heq; subst h1)) <;>
    simp [ensureStep_pres, rbacAfterClusterRole_pres]

theorem dbAfterDeployment_pres (w : World) (s : Submarine) (ns : String)
    (d : KObj) :
    ((dbAfterDeployment w s ns d).1).submarines = w.submarines ∧
    ((dbAfterDeployment w s ns d).1).syncerTrace = w.syncerTrace := by
  unfold dbAfterDeployment
  split <;> rename_i heq <;>
    (try (have h1 := congrArg Prod.fst heq; subst h1)) <;>
    simp [ensureStep_pres]

theorem dbCheckDeployment_pres (w : World) (s : Submarine) (ns pvc : String)
    (d : KObj) :
    ((dbCheckDeployment w s ns pvc d).1).submarines = w.submarines ∧
    ((dbCheckDeployment w s ns pvc d).1).syncerTrace = w.syncerTrace := by
  unfold dbCheckDeployment
  repeat' split
  all_goals try (rename_i heq; have h1 := congrArg Prod.fst heq; subst h1)
  all_goals
    simp [dbAfterDeployment_pres, updateObjIn_pres, warnConflict, recordEvent]

theorem dbAfterPVC_pres (w : World) (s : Submarine) (ns pvc : String) :
    ((dbAfterPVC w s ns pvc).1).submarines = w.submarines ∧
    ((dbAfterPVC w s ns pvc).1).syncerTrace = w.syncerTrace := by
  unfold dbAfterPVC
  repeat' split
  all_goals simp [dbCheckDeployment_pres, createObj]

theorem dbAfterPV_pres (w : World) (s : Submarine) (ns pvn : String) :
    ((dbAfterPV w s ns pvn).1).submarines = w.submarines ∧
    ((dbAfterPV w s ns pvn).1).syncerTrace = w.syncerTrace := by
  unfold dbAfterPV
  split <;> rename_i heq <;>
    (try (have h1 := congrArg Prod.fst heq; subst h1)) <;>
    simp [ensureStep_pres, dbAfterPVC_pres]

theorem dbPVCheck_pres (w : World) (s : Submarine) (ns pvn : String)
    (pv : KObj) :
    ((dbPVCheck w s ns pvn pv).1).submarines = w.submarines ∧
    ((dbPVCheck w s ns pvn pv).1).syncerTrace = w.syncerTrace := by
  unfold dbPVCheck
  split <;> simp [dbAfterPV_pres, warnConflict, recordEvent]

theorem newSubmarineDatabase_pres (w : World) (s : Submarine) (ns : String) :
    ((newSubmarineDatabase w s ns).1).submarines = w.submarines ∧
    ((newSubmarineDatabase w s ns).1).syncerTrace = w.syncerTrace := by
  unfold newSubmarineDatabase
  repeat' split
  all_goals simp [dbPVCheck_pres, createObj]

theorem tbAfterService_pres (w : World) (s : Submarine) (ns : String) :
    ((tbAfterService w s ns).1).submarines = w.submarines ∧
    ((tbAfterService w s ns).1).syncerTrace = w.syncerTrace := by
  unfold tbAfterService
  split <;> rename_i heq <;>
    (try (have h1 := congrArg Prod.fst heq; subst h1)) <;>
    simp [ensureStep_pres]

theorem tbAfterDeployment_pres (w : World) (s : Submarine) (ns : String) :
    ((tbAfterDeployment w s ns).1).submarines = w.submarines ∧
    ((tbAfterDeployment w s ns).1).syncerTrace = w.syncerTrace := by
  unfold tbAfterDeployment
  split <;> rename_i heq <;>
    (try (have h1 := congrArg Prod.fst heq; subst h1)) <;>
    simp [ensureStep_pres, tbAfterService_pres]

theorem tbAfterPVC_pres (w : World) (s : Submarine) (ns pvc : String) :
    ((tbAfterPVC w s ns pvc).1).submarines = w.submarines ∧
    ((tbAfterPVC w s ns pvc).1).syncerTrace = w.syncerTrace := by
  unfold tbAfterPVC
  split <;> rename_i heq <;>
    (try (have h1 := congrArg Prod.fst heq; subst h1)) <;>
    simp [ensureStep_pres, tbAfterDeployment_pres]

theorem tbAfterPV_pres (w : World) (s : Submarine) (ns : String)
    (spec : SubmarineSpec) (pvn : String) :
    ((tbAfterPV w s ns spec pvn).1).submarines = w.submarines ∧
    ((tbAfterPV w s ns spec pvn).1).syncerTrace = w.syncerTrace := by
  unfold tbAfterPV
  split <;> rename_i heq <;>
    (try (have h1 := congrArg Prod.fst heq; subst h1)) <;>
    simp [ensureStep_pres, tbAfterPVC_pres]

theorem tbPVCheck_pres (w : World) (s : Submarine) (ns : String)
    (spec : SubmarineSpec) (pvn : String) (pv : KObj) :
    ((tbPVCheck w s ns spec pvn pv).1).submarines = w.submarines ∧
    ((tbPVCheck w s ns spec pvn pv).1).syncerTrace = w.syncerTrace := by
  unfold tbPVCheck
  split <;> simp [tbAfterPV_pres, warnConflict, recordEvent]

theorem newSubmarineTensorboard_pres (w : World) (s : Submarine) (ns : String)
    (spec : SubmarineSpec) :
    ((newSubmarineTensorboard w s ns spec).1).submarines = w.submarines ∧
    ((newSubmarineTensorboard w s ns spec).1).syncerTrace = w.syncerTrace := by
  unfold newSubmarineTensorboard
  repeat' split
  all_goals simp [tbPVCheck_pres, createObj]

theorem newSubCharts_pres (w : World) (ns : String) :
    (newSubCharts w ns).submarines = w.submarines ∧
    (newSubCharts w ns).syncerTrace = w.syncerTrace := by
  unfold newSubCharts installChart
  constructor <;>
    simp [apply_ite (fun x : World => x.submarines),
          apply_ite (fun x : World => x.syncerTrace)]

theorem traceSyncer_fields (w : World) (s : String) :
    (traceSyncer w s).submarines = w.submarines ∧
    (traceSyncer w s).syncerTrace = w.syncerTrace ++ [s] := ⟨rfl, rfl⟩

theorem C3_ownership_conflict :
    (∀ (w : World) (submarine : Submarine) (createNs : String) (o desired : KObj),
       isControlledBy o submarine = false →
       ensureStep w submarine createNs (some o) desired =
         (warnConflict w o.name, SyncRes.fail (messageResourceExists o.name)) ∧
       (warnConflict w o.name).objects = w.objects ∧
       (warnConflict w o.name).ops = w.ops ∧
       (warnConflict w o.name).events =
         w.events ++ [{ etype := "Warning", reason := ErrResourceExists,
                        message := messageResourceExists o.name }]) ∧
    (∀ (w : World) (submarine : Submarine) (dep : KObj),
       isControlledBy dep submarine = false →
       serverCheckDeployment w submarine dep =
         (warnConflict w dep.name, SyncRes.fail (messageResourceExists dep.name))) ∧
    (∀ (w : World) (submarine : Submarine) (ns pvcName : String) (dep : KObj),
       isControlledBy dep submarine = false →
       dbCheckDeployment w submarine ns pvcName dep =
         (warnConflict w dep.name, SyncRes.fail (messageResourceExists dep.name))) ∧
    (∀ (w : World) (submarine : Submarine) (ns pvName : String) (pv : KObj),
       isControlledBy pv submarine = false →
       dbPVCheck w submarine ns pvName pv =
         (warnConflict w pv.name, SyncRes.fail (messageResourceExists pv.name))) ∧
    (∀ (w : World) (submarine : Submarine) (ns : String) (spec : SubmarineSpec)
       (pvName : String) (pv : KObj),
       isControlledBy pv submarine = false →
       tbPVCheck w submarine ns spec pvName pv =
         (warnConflict w pv.name, SyncRes.fail (messageResourceExists pv.name))) ∧
    (∀ (w : World) (submarine : Submarine) (ns : String) (sa svc dep : KObj),
       listerGet w "ServiceAccount" ns serverName = some sa →
       isControlledBy sa submarine = true →
       listerGet w "Service" ns serverName = some svc →
       isControlledBy svc submarine = true →
       listerGet w "Deployment" ns serverName = some dep →
       isControlledBy dep submarine = false →
       newSubmarineServer w submarine ns =
         (warnConflict w dep.name, SyncRes.fail (messageResourceExists dep.name)) ∧
       listerGet (newSubmarineServer w submarine ns).1 "Deployment" ns
         serverName = some dep) := by
  refine ⟨?_, ?_, ?_, ?_, ?_, ?_⟩
  · intro w submarine createNs o desired h
    exact ⟨by simp [ensureStep, h], rfl, rfl, rfl⟩
  · intro w submarine dep h
    simp [serverCheckDeployment, h]
  · intro w submarine ns pvcName dep h
    simp [dbCheckDeployment, h]
  · intro w submarine ns pvName pv h
    simp [dbPVCheck, h]
  · intro w submarine ns spec pvName pv h
    simp [tbPVCheck, h]
  · intro w submarine ns sa svc dep hsa hsac hsvc hsvcc hdep hdepc
    have hmain : newSubmarineServer w submarine ns =
        (warnConflict w dep.name, SyncRes.fail (messageResourceExists dep.name)) := by
      unfold newSubmarineServer
      rw [hsa]
      simp only [ensureStep, hsac, if_true]
      unfold serverAfterSA
      rw [hsvc]
      simp only [ensureStep, hsvcc, if_true]
      unfold serverAfterService
      rw [hdep]
      simp [serverCheckDeployment, hdepc]
    refine ⟨hmain, ?_⟩
    rw [hmain]
    simpa [listerGet, warnConflict, recordEvent] using hdep

theorem C3_witness :
    isControlledBy { srvDep with owner := none } exHost = false ∧
    (newSubmarineServer wSrvSquat exHost "default").2 =
      SyncRes.fail (messageResourceExists serverName) ∧
    listerGet (newSubmarineServer wSrvSquat exHost "default").1 "Deployment"
      "default" serverName = some { srvDep with owner := none } := by
  have h := (C3_ownership_conflict).2.2.2.2.2 wSrvSquat exHost "default"
    saObj svcObj { srvDep with owner := none }
    (by decide) (by decide) (by decide) (by decide) (by decide) (by decide)
  exact ⟨by decide, by rw [h.1]; rfl, h.2⟩

theorem find?_replace (l : List Submarine) (ns name : String) (a b : Submarine)
    (hfind : l.find? (fun s => s.ns == ns && s.name == name) = some a)
    (hbns : b.ns = a.ns) (hbname : b.name = a.name) :
    (l.map (fun s => if s.ns == b.ns && s.name == b.name then b else s)).find?
      (fun s => s.ns == ns && s.name == name) = some b := by
  induction l with
  | nil => simp [List.find?] at hfind
  | cons x xs ih =>
    unfold List.find? at hfind
    split at hfind
    · next heq =>
      have hax : x = a := Option.some.inj hfind
      subst hax
      obtain ⟨h1, h2⟩ : x.ns = ns ∧ x.name = name := by simpa using heq
      have hb : (x.ns == b.ns && x.name == b.name) = true := by
        simp [hbns, hbname]
      have hpb : (b.ns == ns && b.name == name) = true := by
        simp [hbns, hbname, h1, h2]
      unfold List.map
      rw [if_pos hb]
      unfold List.find?
      simp only [hpb]
    · next heq =>
      have hpa := List.find?_some hfind
      obtain ⟨hans, haname⟩ : a.ns = ns ∧ a.name = name := by simpa using hpa
      have hxb : (x.ns == b.ns && x.name == b.name) = false := by
        by_contra hcon
        obtain hcon2 : (x.ns == b.ns && x.name == b.name) = true := by
          revert hcon
          cases (x.ns == b.ns && x.name == b.name) <;> simp
        obtain ⟨g1, g2⟩ : x.ns = b.ns ∧ x.name = b.name := by simpa using hcon2
        have : (x.ns == ns && x.name == name) = true := by
          simp [g1, g2, hbns, hbname, hans, haname]
        simp [this] at heq
      unfold List.map
      rw [if_neg (by simp [hxb])]
      unfold List.find?
      simp only [heq]
      exact ih hfind

theorem C4_status_faithfulness (w : World) (item : WorkQueueItem)
    (ns name : String) (submarine : Submarine)
    (w1 w2 w3 w4 w5 : World) (sd dd : KObj)
    (hkey : splitMetaNamespaceKey item.key = some (ns, name))
    (hact : item.action ≠ DELETE)
    (hfound : getSubmarine w ns name = some submarine)
    (hsrv : newSubmarineServer (traceSyncer (newSubCharts w ns) "server")
      submarine ns = (w1, SyncRes.ok sd))
    (hdb : newSubmarineDatabase (traceSyncer w1 "database") submarine ns =
      (w2, SyncRes.ok (some dd)))
    (hing : newIngress (traceSyncer w2 "ingress") submarine ns =
      (w3, SyncRes.ok ()))
    (hrbac : newSubmarineServerRBAC (traceSyncer w3 "rbac") submarine ns =
      (w4, SyncRes.ok ()))
    (htb : newSubmarineTensorboard (traceSyncer w4 "tensorboard") submarine ns
      submarine.spec = (w5, SyncRes.ok ())) :
    (syncHandler w item).2 = SyncRes.ok () ∧
    getSubmarine (syncHandler w item).1 ns name =
      some { submarine with status :=
        { availableServerReplicas := sd.availableReplicas,
          availableDatabaseReplicas := dd.availableReplicas } } := by
  have hmain : syncHandler w item =
      (recordEvent
        (updateSubmarine w5
          { submarine with status :=
            { availableServerReplicas := sd.availableReplicas,
              availableDatabaseReplicas := dd.availableReplicas } })
        { etype := "Normal", reason := SuccessSynced,
          message := MessageResourceSynced },
       SyncRes.ok ()) := by
    unfold syncHandler
    rw [hkey]
    simp only [hact, ne_eq, not_false_iff, if_true, hfound, hsrv, hdb, hing,
      hrbac, htb, updateSubmarineStatus]
  have h5 : w5.submarines = w.submarines := by
    have p1 := (newSubmarineServer_pres
      (traceSyncer (newSubCharts w ns) "server") submarine ns).1
    rw [hsrv] at p1
    have p2 := (newSubmarineDatabase_pres (traceSyncer w1 "database")
      submarine ns).1
    rw [hdb] at p2
    have p3 := (newIngress_pres (traceSyncer w2 "ingress") submarine ns).1
    rw [hing] at p3
    have p4 := (newSubmarineServerRBAC_pres (traceSyncer w3 "rbac")
      submarine ns).1
    rw [hrbac] at p4
    have p5 := (newSubmarineTensorboard_pres (traceSyncer w4 "tensorboard")
      submarine ns submarine.spec).1
    rw [htb] at p5
    simp [traceSyncer] at p1 p2 p3 p4 p5
    rw [p5, p4, p3, p2, p1, (newSubCharts_pres w ns).1]
  refine ⟨by rw [hmain], ?_⟩
  rw [hmain]
  unfold getSubmarine recordEvent updateSubmarine
  simp only []
  rw [h5]
  exact find?_replace w.submarines ns name submarine
    { submarine with status :=
      { availableServerReplicas := sd.availableReplicas,
        availableDatabaseReplicas := dd.availableReplicas } } hfound rfl rfl


theorem C4_witness :
    (syncHandler wFull itemUp).2 = SyncRes.ok () ∧
    getSubmarine (syncHandler wFull itemUp).1 "default" "ex" =
      some { exHost with status :=
        { availableServerReplicas := 1, availableDatabaseReplicas := 1 } } := by
  have h := C4_status_faithfulness wFull itemUp "default" "ex" exHost
    (traceSyncer (newSubCharts wFull "default") "server")
    (traceSyncer (traceSyncer (newSubCharts wFull "default") "server")
      "database")
    (traceSyncer (traceSyncer (traceSyncer (newSubCharts wFull "default")
      "server") "database") "ingress")
    (traceSyncer (traceSyncer (traceSyncer (traceSyncer
      (newSubCharts wFull "default") "server") "database") "ingress") "rbac")
    (traceSyncer (traceSyncer (traceSyncer (traceSyncer (traceSyncer
      (newSubCharts wFull "default") "server") "database") "ingress") "rbac")
      "tensorboard")
    srvDep dbDep
    (by decide) (by decide) (by decide) (by decide) (by decide) (by decide)
    (by decide) (by decide)
  exact ⟨h.1, h.2⟩

theorem C5_syncer_order (w : World) (q : WorkQueue) (item : WorkQueueItem)
    (ns name : String) (submarine : Submarine)
    (hkey : splitMetaNamespaceKey item.key = some (ns, name))
    (hact : item.action ≠ DELETE)
    (hfound : getSubmarine w ns name = some submarine) :
    (∀ w1 e,
      newSubmarineServer (traceSyncer (newSubCharts w ns) "server") submarine
        ns = (w1, SyncRes.fail e) →
      syncHandler w item = (w1, SyncRes.fail e) ∧
      w1.syncerTrace = w.syncerTrace ++ ["server"]) ∧
    (∀ w1 sd w2 e,
      newSubmarineServer (traceSyncer (newSubCharts w ns) "server") submarine
        ns = (w1, SyncRes.ok sd) →
      newSubmarineDatabase (traceSyncer w1 "database") submarine ns =
        (w2, SyncRes.fail e) →
      syncHandler w item = (w2, SyncRes.fail e) ∧
      w2.syncerTrace = w.syncerTrace ++ ["server", "database"]) ∧
    (∀ w1 sd w2 (dd : Option KObj) w3 e,
      newSubmarineServer (traceSyncer (newSubCharts w ns) "server") submarine
        ns = (w1, SyncRes.ok sd) →
      newSubmarineDatabase (traceSyncer w1 "database") submarine ns =
        (w2, SyncRes.ok dd) →
      newIngress (traceSyncer w2 "ingress") submarine ns =
        (w3, SyncRes.fail e) →
      syncHandler w item = (w3, SyncRes.fail e) ∧
      w3.syncerTrace = w.syncerTrace ++ ["server", "database", "ingress"]) ∧
    (∀ w1 sd w2 (dd : Option KObj) w3 w4 e,
      newSubmarineServer (traceSyncer (newSubCharts w ns) "server") submarine
        ns = (w1, SyncRes.ok sd) →
      newSubmarineDatabase (traceSyncer w1 "database") submarine ns =
        (w2, SyncRes.ok dd) →
      newIngress (traceSyncer w2 "ingress") submarine ns =
        (w3, SyncRes.ok ()) →
      newSubmarineServerRBAC (traceSyncer w3 "rbac") submarine ns =
        (w4, SyncRes.fail e) →
      syncHandler w item = (w4, SyncRes.fail e) ∧
      w4.syncerTrace =
        w.syncerTrace ++ ["server", "database", "ingress", "rbac"]) ∧
    (∀ w1 sd w2 (dd : Option KObj) w3 w4 w5 e,
      newSubmarineServer (traceSyncer (newSubCharts w ns) "server") submarine
        ns = (w1, SyncRes.ok sd) →
      newSubmarineDatabase (traceSyncer w1 "database") submarine ns =
        (w2, SyncRes.ok dd) →
      newIngress (traceSyncer w2 "ingress") submarine ns =
        (w3, SyncRes.ok ()) →
      newSubmarineServerRBAC (traceSyncer w3 "rbac") submarine ns =
        (w4, SyncRes.ok ()) →
      newSubmarineTensorboard (traceSyncer w4 "tensorboard") submarine ns
        submarine.spec = (w5, SyncRes.fail e) →
      syncHandler w item = (w5, SyncRes.fail e) ∧
      w5.syncerTrace =
        w.syncerTrace ++
          ["server", "database", "ingress", "rbac", "tensorboard"]) ∧
    (∀ wf e, syncHandler w item = (wf, SyncRes.fail e) →
      processNextWorkItem w q item =
        (wf, WorkQueue.done (WorkQueue.addRateLimited q item) item,
         SyncRes.fail e)) := by
  refine ⟨?_, ?_, ?_, ?_, ?_, ?_⟩
  · intro w1 e h1
    constructor
    · unfold syncHandler
      rw [hkey]
      simp only [hact, ne_eq, not_false_iff, if_true, hfound, h1]
    · have p := (newSubmarineServer_pres
        (traceSyncer (newSubCharts w ns) "server") submarine ns).2
      rw [h1] at p
      simpa [traceSyncer, (newSubCharts_pres w ns).2] using p
  · intro w1 sd w2 e h1 h2
    have p1 := (newSubmarineServer_pres
      (traceSyncer (newSubCharts w ns) "server") submarine ns).2
    rw [h1] at p1
    have p2 := (newSubmarineDatabase_pres (traceSyncer w1 "database")
      submarine ns).2
    rw [h2] at p2
    constructor
    · unfold syncHandler
      rw [hkey]
      simp only [hact, ne_eq, not_false_iff, if_true, hfound, h1, h2]
    · simp [traceSyncer, (newSubCharts_pres w ns).2] at p1 p2
      simp [p2, p1]
  · intro w1 sd w2 dd w3 e h1 h2 h3
    have p1 := (newSubmarineServer_pres
      (traceSyncer (newSubCharts w ns) "server") submarine ns).2
    rw [h1] at p1
    have p2 := (newSubmarineDatabase_pres (traceSyncer w1 "database")
      submarine ns).2
    rw [h2] at p2
    have p3 := (newIngress_pres (traceSyncer w2 "ingress") submarine ns).2
    rw [h3] at p3
    constructor
    · unfold syncHandler
      rw [hkey]
      simp only [hact, ne_eq, not_false_iff, if_true, hfound, h1, h2, h3]
    · simp [traceSyncer, (newSubCharts_pres w ns).2] at p1 p2 p3
      simp [p3, p2, p1]
  · intro w1 sd w2 dd w3 w4 e h1 h2 h3 h4
    have p1 := (newSubmarineServer_pres
      (traceSyncer (newSubCharts w ns) "server") submarine ns).2
    rw [h1] at p1
    have p2 := (newSubmarineDatabase_pres (traceSyncer w1 "database")
      submarine ns).2
    rw [h2] at p2
    have p3 := (newIngress_pres (traceSyncer w2 "ingress") submarine ns).2
    rw [h3] at p3
    have p4 := (newSubmarineServerRBAC_pres (traceSyncer w3 "rbac")
      submarine ns).2
    rw [h4] at p4
    constructor
    · unfold syncHandler
      rw [hkey]
      simp only [hact, ne_eq, not_false_iff, if_true, hfound, h1, h2, h3, h4]
    · simp [traceSyncer, (newSubCharts_pres w ns).2] at p1 p2 p3 p4
      simp [p4, p3, p2, p1]
  · intro w1 sd w2 dd w3 w4 w5 e h1 h2 h3 h4 h5
    have p1 := (newSubmarineServer_pres
      (traceSyncer (newSubCharts w ns) "server") submarine ns).2
    rw [h1] at p1
    have p2 := (newSubmarineDatabase_pres (traceSyncer w1 "database")
      submarine ns).2
    rw [h2] at p2
    have p3 := (newIngress_pres (traceSyncer w2 "ingress") submarine ns).2
    rw [h3] at p3
    have p4 := (newSubmarineServerRBAC_pres (traceSyncer w3 "rbac")
      submarine ns).2
    rw [h4] at p4
    have p5 := (newSubmarineTensorboard_pres (traceSyncer w4 "tensorboard")
      submarine ns submarine.spec).2
    rw [h5] at p5
    constructor
    · unfold syncHandler
      rw [hkey]
      simp only [hact, ne_eq, not_false_iff, if_true, hfound, h1, h2, h3, h4,
        h5]
    · simp [traceSyncer, (newSubCharts_pres w ns).2] at p1 p2 p3 p4 p5
      simp [p5, p4, p3, p2, p1]
  · intro wf e h
    unfold processNextWorkItem
    rw [h]

theorem C5_witness :
    syncHandler wDbSquat itemUp =
      (warnConflict
        (traceSyncer (traceSyncer (newSubCharts wDbSquat "default") "server")
          "database") databaseName,
       SyncRes.fail (messageResourceExists databaseName)) ∧
    (warnConflict
      (traceSyncer (traceSyncer (newSubCharts wDbSquat "default") "server")
        "database") databaseName).syncerTrace =
      wDbSquat.syncerTrace ++ ["server", "database"] :=
  (C5_syncer_order wDbSquat emptyQueue itemUp "default" "ex" exHost
    (by decide) (by decide) (by decide)).2.1
    (traceSyncer (newSubCharts wDbSquat "default") "server") srvDep
    (warnConflict
      (traceSyncer (traceSyncer (newSubCharts wDbSquat "default") "server")
        "database") databaseName)
    (messageResourceExists databaseName) (by decide) (by decide)



theorem mem_upsertItem (l : List WorkQueueItem) (item y : WorkQueueItem)
    (h : y ∈ upsertItem l item) : y ∈ l ∨ y.key = item.key := by
  induction l with
  | nil =>
    simp [upsertItem] at h
    right
    rw [h]
  | cons x xs ih =>
    unfold upsertItem at h
    by_cases hx : (x.key == item.key) = true
    · rw [if_pos hx] at h
      rcases List.mem_cons.mp h with h1 | h1
      · right
        rw [h1]
      · left
        exact List.mem_cons_of_mem _ h1
    · rw [if_neg hx] at h
      rcases List.mem_cons.mp h with h1 | h1
      · left
        rw [h1]
        exact List.mem_cons_self _ _
      · rcases ih h1 with h2 | h2
        · left
          exact List.mem_cons_of_mem _ h2
        · right
          exact h2

theorem keysUniqueB_upsertItem (l : List WorkQueueItem) (item : WorkQueueItem)
    (h : keysUniqueB l = true) : keysUniqueB (upsertItem l item) = true := by
  induction l with
  | nil => simp [upsertItem, keysUniqueB]
  | cons x xs ih =>
    unfold keysUniqueB at h
    obtain ⟨h1, h2⟩ : (xs.any (fun y => y.key == x.key)) = false ∧
        keysUniqueB xs = true := by
      constructor
      · by_contra hcon
        obtain hc2 : (xs.any (fun y => y.key == x.key)) = true := by
          revert hcon
          cases (xs.any (fun y => y.key == x.key)) <;> simp
        simp [hc2] at h
      · by_contra hcon
        obtain hc2 : keysUniqueB xs = false := by
          revert hcon
          cases keysUniqueB xs <;> simp
        simp [hc2] at h
    unfold upsertItem
    by_cases hx : (x.key == item.key) = true
    · rw [if_pos hx]
      have hxe : x.key = item.key := by simpa using hx
      unfold keysUniqueB
      simp only [← hxe, h1, h2, Bool.not_false, Bool.and_self]
    · rw [if_neg hx]
      unfold keysUniqueB
      have ha : ((upsertItem xs item).any (fun y => y.key == x.key)) = false := by
        by_contra hcon
        obtain hc2 : ((upsertItem xs item).any (fun y => y.key == x.key)) = true := by
          revert hcon
          cases ((upsertItem xs item).any (fun y => y.key == x.key)) <;> simp
        obtain ⟨y, hy, hyk⟩ := List.any_eq_true.mp hc2
        rcases mem_upsertItem xs item y hy with hm | hm
        · have : (xs.any (fun y => y.key == x.key)) = true :=
            List.any_eq_true.mpr ⟨y, hm, hyk⟩
          simp [this] at h1
        · have hyx : y.key = x.key := by simpa using hyk
          exact hx (by simp [← hm, hyx])
      simp [ha, ih h2]

theorem countP_keysUniqueB (l : List WorkQueueItem) (k : String)
    (h : keysUniqueB l = true) :
    l.countP (fun x => x.key == k) ≤ 1 := by
  induction l with
  | nil => simp
  | cons x xs ih =>
    unfold keysUniqueB at h
    obtain ⟨h1, h2⟩ : (xs.any (fun y => y.key == x.key)) = false ∧
        keysUniqueB xs = true := by
      constructor
      · by_contra hcon
        obtain hc2 : (xs.any (fun y => y.key == x.key)) = true := by
          revert hcon
          cases (xs.any (fun y => y.key == x.key)) <;> simp
        simp [hc2] at h
      · by_contra hcon
        obtain hc2 : keysUniqueB xs = false := by
          revert hcon
          cases keysUniqueB xs <;> simp
        simp [hc2] at h
    by_cases hx : (x.key == k) = true
    · have h0 : xs.countP (fun x => x.key == k) = 0 := by
        rw [List.countP_eq_zero]
        intro y hy hyk
        have hxe : x.key = k := by simpa using hx
        have hye : y.key = k := by simpa using hyk
        have : (xs.any (fun z => z.key == x.key)) = true :=
          List.any_eq_true.mpr ⟨y, hy, by simp [hye, hxe]⟩
        simp [this] at h1
      simp [List.countP_cons, hx, h0]
    · obtain hx2 : (x.key == k) = false := by
        revert hx
        cases (x.key == k) <;> simp
      simp [List.countP_cons, hx2]
      exact ih h2

theorem find?_upsertItem_some (l : List WorkQueueItem)
    (item old : WorkQueueItem)
    (h : l.find? (fun x => x.key == item.key) = some old) :
    (upsertItem l item).find? (fun x => x.key == item.key) =
      some { key := item.key,
             action := mergeIntent old.action item.action } := by
  induction l with
  | nil => simp [List.find?] at h
  | cons x xs ih =>
    unfold List.find? at h
    split at h
    · next heq =>
      have hax : x = old := Option.some.inj h
      subst hax
      unfold upsertItem
      rw [if_pos heq]
      unfold List.find?
      simp
    · next heq =>
      unfold upsertItem
      rw [if_neg (by simp [heq])]
      unfold List.find?
      simp only [heq]
      exact ih h

theorem find?_upsertItem_none (l : List WorkQueueItem)
    (item : WorkQueueItem)
    (h : l.find? (fun x => x.key == item.key) = none) :
    upsertItem l item = l ++ [item] := by
  induction l with
  | nil => simp [upsertItem]
  | cons x xs ih =>
    unfold List.find? at h
    split at h
    · exact absurd h (by simp)
    · next heq =>
      unfold upsertItem
      rw [if_neg (by simp [heq])]
      rw [ih h]
      simp

theorem C2_workqueue_add_collapses (q : WorkQueue) (item : WorkQueueItem)
    (hp : keysUniqueB q.pending = true) (hd : keysUniqueB q.dirty = true) :
    keysUniqueB (q.add item).pending = true ∧
    keysUniqueB (q.add item).dirty = true ∧
    (q.add item).pending.countP (fun x => x.key == item.key) ≤ 1 ∧
    (q.inflight.contains item.key = false →
      (∀ old, q.pending.find? (fun x => x.key == item.key) = some old →
        (q.add item).pending.find? (fun x => x.key == item.key) =
          some { key := item.key,
                 action := mergeIntent old.action item.action }) ∧
      (q.pending.find? (fun x => x.key == item.key) = none →
        (q.add item).pending = q.pending ++ [item])) ∧
    (q.inflight.contains item.key = true →
      (q.add item).pending = q.pending ∧
      (∀ old, q.dirty.find? (fun x => x.key == item.key) = some old →
        (q.add item).dirty.find? (fun x => x.key == item.key) =
          some { key := item.key,
                 action := mergeIntent old.action item.action })) ∧
    (∀ a, mergeIntent DELETE a = DELETE) ∧
    (∀ a b, a ≠ DELETE → mergeIntent a b = b) := by
  by_cases hc : q.inflight.contains item.key = true
  · refine ⟨?_, ?_, ?_, ?_, ?_, ?_, ?_⟩
    · simp only [WorkQueue.add, hc, if_true]
      exact hp
    · simp only [WorkQueue.add, hc, if_true]
      exact keysUniqueB_upsertItem _ _ hd
    · simp only [WorkQueue.add, hc, if_true]
      exact countP_keysUniqueB _ _ hp
    · intro hcf
      rw [hc] at hcf
      exact absurd hcf (by simp)
    · intro _
      constructor
      · simp only [WorkQueue.add, hc, if_true]
      · intro old h
        simp only [WorkQueue.add, hc, if_true]
        exact find?_upsertItem_some _ _ _ h
    · intro a
      simp [mergeIntent]
    · intro a b hab
      simp [mergeIntent, hab]
  · obtain hc2 : q.inflight.contains item.key = false := by
      revert hc
      cases q.inflight.contains item.key <;> simp
    refine ⟨?_, ?_, ?_, ?_, ?_, ?_, ?_⟩
    · simp only [WorkQueue.add, hc2, Bool.false_eq_true, if_false]
      exact keysUniqueB_upsertItem _ _ hp
    · simp only [WorkQueue.add, hc2, Bool.false_eq_true, if_false]
      exact hd
    · simp only [WorkQueue.add, hc2, Bool.false_eq_true, if_false]
      exact countP_keysUniqueB _ _ (keysUniqueB_upsertItem _ _ hp)
    · intro _
      constructor
      · intro old h
        simp only [WorkQueue.add, hc2, Bool.false_eq_true, if_false]
        exact find?_upsertItem_some _ _ _ h
      · intro h
        simp only [WorkQueue.add, hc2, Bool.false_eq_true, if_false]
        exact find?_upsertItem_none _ _ h
    · intro hcf
      rw [hc2] at hcf
      exact absurd hcf (by simp)
    · intro a
      simp [mergeIntent]
    · intro a b hab
      simp [mergeIntent, hab]

theorem C2_witness :
    keysUniqueB qW.pending = true ∧
    (qW.add { key := "default/ex", action := DELETE }).pending.find?
      (fun x => x.key == "default/ex") =
      some { key := "default/ex", action := DELETE } := by
  have h := C2_workqueue_add_collapses qW
    { key := "default/ex", action := DELETE } (by decide) (by decide)
  refine ⟨by decide, ?_⟩
  have h4 := (h.2.2.2.1 (by decide)).1 { key := "default/ex", action := ADD }
    (by decide)
  simpa [mergeIntent, ADD, DELETE] using h4
